import Mathlib

/-!
Verification of the main-process control layer of the SymphonyElectron client:
the screen-snippet capture session (`screen-snippet-handler`), the IPC command
dispatcher and its redacting logger (`main-api-handler.ts`), and the pod-login
proxy-retry flow (`loadPodUrl`).

The TypeScript is embedded shallowly: each stateful handler becomes a pure
Lean function from an explicit environment (platform flags, collaborator
lookups), an explicit state record (the mutable fields of the class or
module), and a "world" record (the outcomes of external effects: child
process exit, file contents, probe responses) to a new state paired with the
ordered list of observable effects the handler performs.  `logger.info`
calls inside individual command handlers are not modelled (pure
observability); the pre-dispatch `logApiCallParams` record and the
sender-validation `logger.error` are modelled, since claims speak about them.
-/

/-! ## Base64 (Buffer.toString('base64') / its inverse) -/

/-- The standard base64 alphabet used by Node's `Buffer.toString('base64')`. -/
def base64Chars : List Char :=
  "ABCDEFGHIJKLMNOPQRSTUVWXYZabcdefghijklmnopqrstuvwxyz0123456789+/".toList

/-- Character for a sextet value (values ≥ 64 never arise for byte input). -/
def sextetChar (n : Nat) : Char := base64Chars.getD n 'A'

/-- Sextet value of a base64 character. -/
def sextetVal (c : Char) : Nat := base64Chars.indexOf c

/-- Base64 encoding of a byte list (bytes as `Nat < 256`), chunked by 3,
padded with `'='` exactly as standard base64 does. -/
def base64EncodeList : List Nat → List Char
  | [] => []
  | [a] => [sextetChar (a / 4), sextetChar (a % 4 * 16), '=', '=']
  | [a, b] =>
    [sextetChar (a / 4), sextetChar (a % 4 * 16 + b / 16),
     sextetChar (b % 16 * 4), '=']
  | a :: b :: c :: rest =>
    sextetChar (a / 4) :: sextetChar (a % 4 * 16 + b / 16) ::
    sextetChar (b % 16 * 4 + c / 64) :: sextetChar (c % 64) ::
    base64EncodeList rest

/-- `Buffer.from(data).toString('base64')`. -/
def base64Encode (bs : List Nat) : String := String.mk (base64EncodeList bs)

/-- Standard base64 decoding on a character list, chunked by 4, honouring
`'='` padding. -/
def base64DecodeList : List Char → List Nat
  | c1 :: c2 :: c3 :: c4 :: rest =>
    if c3 = '=' then
      [sextetVal c1 * 4 + sextetVal c2 / 16]
    else if c4 = '=' then
      [sextetVal c1 * 4 + sextetVal c2 / 16,
       sextetVal c2 % 16 * 16 + sextetVal c3 / 4]
    else
      (sextetVal c1 * 4 + sextetVal c2 / 16) ::
      (sextetVal c2 % 16 * 16 + sextetVal c3 / 4) ::
      (sextetVal c3 % 4 * 64 + sextetVal c4) ::
      base64DecodeList rest
  | _ => []

/-- Base64 decoding of a string. -/
def base64Decode (s : String) : List Nat := base64DecodeList s.toList

/-! ## Screen snippet session (`screen-snippet-handler`, class `ScreenSnippet`)

The class fields `outputFileName`, `captureUtilArgs`, `child`,
`focusedWindow`, `shouldUpdateAlwaysOnTop` become a state record; child
process handles and window references are abstracted to `Nat` identities.
-/

/-- The `IScreenSnippet` payload `{ message, data?, type }`. -/
structure IScreenSnippet where
  message : String
  data : Option String := none
  type : String
  deriving Repr, DecidableEq

/-- Mutable fields of the `ScreenSnippet` class. -/
structure ScreenSnippetState where
  outputFileName : Option String := none
  captureUtilArgs : Option (List String) := none
  child : Option Nat := none
  focusedWindow : Option Nat := none
  shouldUpdateAlwaysOnTop : Bool := false
  deriving Repr, DecidableEq

/-- Read-only context of a capture: platform flags, collaborator reads and
the values the constructor computed (`tempDir`, `captureUtil`). -/
structure SnippetEnv where
  isMac : Bool
  isWindowsOS : Bool
  isLinux : Bool
  isMana : Bool
  /-- `windowHandler.getMainWindow()` is non-null and `windowExists` holds. -/
  mainWindowExists : Bool
  /-- `mainWindow.isAlwaysOnTop()`. -/
  mainWindowAlwaysOnTop : Bool
  locale : String
  tempDir : String
  captureUtil : String
  /-- `BrowserWindow.getFocusedWindow()` at capture start. -/
  focusedWindow : Option Nat
  /-- `windowExists(this.focusedWindow)` at `moveTop` time. -/
  focusedWindowExists : Bool
  /-- `Date.now()` used for the output file name. -/
  timestamp : Nat
  deriving Repr, DecidableEq

/-- Outcomes of the external effects performed by one capture attempt. -/
structure CaptureWorld where
  /-- The exec callback ran with `error && error.killed` (promise rejected). -/
  execKilled : Bool
  /-- Identity of the `ChildProcess` returned by `execFile`. -/
  newHandle : Nat
  /-- Contents of the output file when `readFile` is attempted; `none` means
  the tool produced no file (`ENOENT`). -/
  fileContents : Option (List Nat)
  /-- `sizeOf(outputFileName)` result on the Mana path. -/
  imageDims : Option Nat × Option Nat
  deriving Repr, DecidableEq

/-- Result of `readFile(this.outputFileName)` as seen by
`convertFileToData`: success with bytes, a falsy buffer (`if (!data)`),
`ENOENT`, or any other error. -/
inductive ReadResult where
  | ok (bytes : List Nat)
  | empty
  | enoent
  | otherError (msg : String)
  deriving Repr, DecidableEq

/-- Observable effects of the snippet session. -/
inductive SEv where
  | updateAlwaysOnTop (enable : Bool)
  | killChild (h : Nat)
  | spawn (util : String) (args : List String) (h : Nat)
  | sendSnippetData (p : IScreenSnippet)
  | moveTop (w : Nat)
  | deleteFile (f : String)
  | closeSnippingToolWindow
  | createSnippingToolWindow (f : String) (dims : Option (Option Nat × Option Nat))
  | registerUploadListener
  deriving Repr, DecidableEq

/-- `killChildProcess()`: kill the live child process handle, if any
(idempotent when none is live). -/
def killChildProcess (st : ScreenSnippetState) : List SEv :=
  match st.child with
  | some h => [SEv.killChild h]
  | none => []

/-- `verifyAndUpdateAlwaysOnTop()`: restore the always-on-top setting iff
`shouldUpdateAlwaysOnTop` is set, clearing the flag. -/
def verifyAndUpdateAlwaysOnTop (st : ScreenSnippetState) :
    ScreenSnippetState × List SEv :=
  if st.shouldUpdateAlwaysOnTop then
    ({ st with shouldUpdateAlwaysOnTop := false }, [SEv.updateAlwaysOnTop true])
  else
    (st, [])

/-- `convertFileToData()`: build the `IScreenSnippet` payload from the read
result, with the `finally` block's effects (refocus the previously focused
window, delete the temp file). -/
def convertFileToData (env : SnippetEnv) (st : ScreenSnippetState)
    (r : ReadResult) : IScreenSnippet × List SEv :=
  let payload :=
    match st.outputFileName with
    | none => { message := "output file name is required", type := "ERROR" : IScreenSnippet }
    | some _ =>
      match r with
      | ReadResult.ok bytes =>
        { message := "success", data := some (base64Encode bytes),
          type := "image/png;base64" }
      | ReadResult.empty => { message := "no file data provided", type := "ERROR" }
      | ReadResult.enoent => { message := "file does not exist", type := "ERROR" }
      | ReadResult.otherError msg => { message := msg, type := "ERROR" }
  let focusEv :=
    match st.focusedWindow with
    | some w => if env.focusedWindowExists then [SEv.moveTop w] else []
    | none => []
  let deleteEv :=
    match st.outputFileName with
    | some f => [SEv.deleteFile f]
    | none => []
  (payload, focusEv ++ deleteEv)

/-- The read result `readFile` produces for given on-disk file contents. -/
def readResultOf : Option (List Nat) → ReadResult
  | some bytes => ReadResult.ok bytes
  | none => ReadResult.enoent

/-- `getImageSize()`: `undefined` without an output file name, else the
`sizeOf` dimensions. -/
def getImageSize (st : ScreenSnippetState) (w : CaptureWorld) :
    Option (Option Nat × Option Nat) :=
  match st.outputFileName with
  | none => none
  | some _ => some w.imageDims

/-- Output file path computed at capture start:
`path.join(tempDir, 'symphonyImage-' + Date.now() + '.png')`. -/
def captureOutputPath (env : SnippetEnv) : String :=
  env.tempDir ++ "/symphonyImage-" ++ toString env.timestamp ++ ".png"

/-- The platform-specific argument vector for the capture tool. -/
def captureArgs (env : SnippetEnv) (out : String) : List String :=
  if env.isMac then ["-i", "-s", "-t", "png", out]
  else if env.isWindowsOS then
    if env.isMana then ["--no-annotate", out, env.locale]
    else [out, env.locale]
  else if env.isLinux then ["-a", "-f", out]
  else []

/-- The part of `capture` after `execCmd` resolves or rejects: the `try`
continuation (Mana hand-off or payload delivery plus always-on-top
restore) or the `catch` block (restore only). -/
def captureFinish (env : SnippetEnv) (st : ScreenSnippetState)
    (out : String) (w : CaptureWorld) : ScreenSnippetState × List SEv :=
  if w.execKilled then
    -- catch branch: only restores always-on-top and logs the error
    verifyAndUpdateAlwaysOnTop st
  else if env.isMana then
    (st, [SEv.closeSnippingToolWindow,
          SEv.createSnippingToolWindow out (getImageSize st w),
          SEv.registerUploadListener])
  else
    let pc := convertFileToData env st (readResultOf w.fileContents)
    let v := verifyAndUpdateAlwaysOnTop st
    (v.1, pc.2 ++ [SEv.sendSnippetData pc.1] ++ v.2)

/-- `capture(webContents)`: suspend always-on-top on Windows, compute the
output path and tool arguments, kill any previous child process, spawn the
capture tool and finish per the exec outcome. -/
def capture (env : SnippetEnv) (st : ScreenSnippetState) (w : CaptureWorld) :
    ScreenSnippetState × List SEv :=
  let st0 := { st with shouldUpdateAlwaysOnTop :=
    if env.mainWindowExists && env.isWindowsOS then env.mainWindowAlwaysOnTop
    else st.shouldUpdateAlwaysOnTop }
  let ev0 :=
    if env.mainWindowExists && env.isWindowsOS && env.mainWindowAlwaysOnTop then
      [SEv.updateAlwaysOnTop false]
    else []
  let out := captureOutputPath env
  let args := captureArgs env out
  let st1 := { st0 with
    outputFileName := some out
    captureUtilArgs := some args
    focusedWindow := env.focusedWindow }
  let killEv := killChildProcess st1
  let st2 := { st1 with child := some w.newHandle }
  let fin := captureFinish env st2 out w
  (fin.1, ev0 ++ killEv ++ SEv.spawn env.captureUtil args w.newHandle :: fin.2)

/-- `cancelCapture()`: a no-op off Windows; on Windows invokes the tool with
no arguments and restores always-on-top on both the success and error
paths. -/
def cancelCapture (env : SnippetEnv) (st : ScreenSnippetState)
    (w : CaptureWorld) : ScreenSnippetState × List SEv :=
  if !env.isWindowsOS then (st, [])
  else
    let st1 := { st with focusedWindow := env.focusedWindow }
    let st2 := { st1 with child := some w.newHandle }
    let v := verifyAndUpdateAlwaysOnTop st2
    (v.1, SEv.spawn env.captureUtil [] w.newHandle :: v.2)

/-! ## IPC command dispatcher (`main-api-handler.ts`)

`apiCmds` (declared in `common/api-interface`, used here through the cases
of the two switches) becomes an inductive with one constructor per tag
appearing in this file, plus `unknown` for every tag outside that closed
set.  `IApiArgs` becomes a record of optional fields; a field being `none`
models the JavaScript value being absent or of the wrong type, so the
`typeof`-guards of the handlers become `Option` matches. -/

/-- A JavaScript primitive, for fields used with more than one `typeof`
guard (`arg.id` is a number for screen pickers and a string for
downloads). -/
inductive JsPrim where
  | num (n : Int)
  | str (s : String)
  deriving Repr, DecidableEq

set_option maxHeartbeats 1600000 in
/-- The command tags dispatched in `main-api-handler.ts`. -/
inductive ApiCmd where
  | isOnline | setBadgeCount | registerProtocolHandler | registerLogRetriever
  | sendLogs | badgeDataUrl | activate | registerLogger
  | registerActivityDetection | registerDownloadHandler
  | showNotificationSettings | sanitize | bringToFront
  | openScreenPickerWindow | popupMenu | setLocale | keyPress | getMyPresence
  | openScreenSnippet | closeScreenSnippet | closeWindow
  | openScreenSharingIndicator | downloadManagerAction | openDownloadedItem
  | showDownloadedItem | clearDownloadedItems | restartApp | setIsInMeeting
  | memoryInfo | getConfigUrl | registerAnalyticsHandler | setCloudConfig
  | setIsMana | showNotification | closeNotification | closeAllWrapperWindows
  | setZoomLevel | aboutAppClipBoardData | closeMainWindow
  | minimizeMainWindow | maximizeMainWindow | unmaximizeMainWindow
  | browserLogin | setBroadcastMessage | handleSwiftSearchMessageEvents
  | connectCloud9Pipe | writeCloud9Pipe | closeCloud9Pipe | launchCloud9
  | terminateCloud9 | updateAndRestart | downloadUpdate | checkForUpdates
  | getCurrentOriginUrl | isAeroGlassEnabled
  | showScreenSharePermissionDialog | getMediaAccessStatus | getSources
  | getNativeWindowHandle | getCitrixMediaRedirectionStatus
  /-- Any tag outside the fixed closed set above. -/
  | unknown (tag : String)
  deriving Repr

/-- `INotificationData`: the sensitive `title`/`body`/`data` fields made
explicit, every other property abstracted as a key-value list preserved by
object spread. -/
structure NotificationData where
  title : String
  body : String
  data : String
  rest : List (String × String) := []
  deriving Repr, DecidableEq

/-- One desktop-capturer source as logged by `openScreenPickerWindow`
(`thumbnail` is the sensitive field). -/
structure SourceInfo where
  name : String
  id : String
  thumbnail : String
  display_id : String
  appIcon : String
  deriving Repr, DecidableEq

/-- `arg.logs` for `sendLogs`: the sensitive `logFiles` contents made
explicit, the rest abstracted as a key-value list. -/
structure LogsInfo where
  logFiles : List (String × String) := []
  rest : List (String × String) := []
  deriving Repr, DecidableEq

/-- An abstract JavaScript object (used where a handler only checks
`typeof x === 'object'` or truthiness). -/
def JsObj : Type := List (String × String)
deriving instance Repr, DecidableEq for JsObj

/-- `IApiArgs`: one optional field per property read by the dispatcher.
The source field `type` of `downloadManagerAction` is named `dmType` here
(`type` is reserved in Lean). -/
structure ApiArgs where
  cmd : ApiCmd
  isOnline : Option Bool := none
  count : Option Int := none
  logName : Option String := none
  logs : Option LogsInfo := none
  dataUrl : Option String := none
  windowName : Option String := none
  theme : Option String := none
  period : Option Int := none
  reason : Option String := none
  sources : Option (List SourceInfo) := none
  id : Option JsPrim := none
  locale : Option String := none
  keyCode : Option Int := none
  status : Option String := none
  hideOnCapture : Option Bool := none
  windowType : Option String := none
  winKey : Option String := none
  displayId : Option String := none
  streamId : Option String := none
  path : Option String := none
  dmType : Option String := none
  isInMeeting : Option Bool := none
  memoryInfo : Option JsObj := none
  cloudConfig : Option JsObj := none
  isMana : Option Bool := none
  notificationOpts : Option NotificationData := none
  notificationId : Option Int := none
  zoomLevel : Option Int := none
  clipboard : Option JsObj := none
  clipboardType : Option String := none
  browserLoginAutoConnect : Option Bool := none
  isPodConfigured : Option Bool := none
  newPodUrl : Option String := none
  swiftSearchData : Option JsObj := none
  pipe : Option String := none
  data : Option (List Nat) := none
  autoUpdateTrigger : Option String := none
  deriving Repr

/-- JavaScript truthiness of an optional string (absent and `''` are
falsy). -/
def strTruthy : Option String → Bool
  | none => false
  | some s => !(s == "")

/-- JavaScript truthiness of an optional boolean. -/
def boolTruthy : Option Bool → Bool
  | none => false
  | some b => b

/-- The structured content of one log record emitted by
`logApiCallParams` before a JSON serialization that this embedding leaves
abstract.  Each constructor mirrors the object literal the source builds
for that command class. -/
inductive LogRecord where
  /-- `{...arg.notificationOpts, title:'hidden', body:'hidden', data:'hidden'}`. -/
  | notifProps (nd : NotificationData)
  /-- The argument object serialized as-is, or with a field replaced via
  spread (`badgeDataUrl` and `openScreenPickerWindow`, and the default
  branch). -/
  | argProps (a : ApiArgs)
  /-- `{...arg.logs, logFiles:'hidden'}`. -/
  | sendLogsProps (rest : List (String × String)) (logFiles : String)
  /-- `{...arg, data: <base64 of the raw payload>}`: the record's `data`
  key holds `dataB64`; the carried `ApiArgs` has its raw `data` field
  cleared, since the spread replaces that key. -/
  | pipeProps (a : ApiArgs) (dataB64 : String)
  deriving Repr

/-- `logApiCallParams(arg)`: the redacted record logged before dispatch.
`none` models the function throwing: `arg.sources.map` with a non-array
`sources`, or `Buffer.from(arg.data)` with an absent payload, raise before
any record is produced. -/
def logApiCallParams (arg : ApiArgs) : Option LogRecord :=
  match arg.cmd with
  | ApiCmd.showNotification =>
    let nd :=
      match arg.notificationOpts with
      | some nd => nd
      | none => { title := "", body := "", data := "", rest := [] }
    some (LogRecord.notifProps
      { nd with title := "hidden", body := "hidden", data := "hidden" })
  | ApiCmd.badgeDataUrl =>
    some (LogRecord.argProps { arg with dataUrl := some "hidden" })
  | ApiCmd.openScreenPickerWindow =>
    match arg.sources with
    | none => none
    | some ss =>
      some (LogRecord.argProps { arg with
        sources := some (ss.map fun s => { s with thumbnail := "hidden" }) })
  | ApiCmd.sendLogs =>
    let rest :=
      match arg.logs with
      | some l => l.rest
      | none => []
    some (LogRecord.sendLogsProps rest "hidden")
  | ApiCmd.writeCloud9Pipe =>
    match arg.data with
    | none => none
    | some bytes =>
      some (LogRecord.pipeProps { arg with data := none } (base64Encode bytes))
  | _ => some (LogRecord.argProps arg)

/-! ## Module-level mutable state and the pod login flow -/

/-- The module-level mutable variables of `main-api-handler.ts`
(`proxyDetails`, `loginUrl`, `formattedPodUrl`) together with the
`windowHandler` flags this file writes; `userConfigUrl` is the stored
user-config `url` (written by `browserLogin`, read back by it), and
`mainWindowOrigin` is what `windowHandler.setMainWindowOrigin` recorded. -/
structure MainState where
  isOnline : Bool := false
  isWebPageLoading : Bool := true
  isLoggedIn : Bool := false
  isMana : Bool := false
  userConfigUrl : Option String := none
  formattedPodUrl : String := ""
  loginUrl : String := ""
  proxyUsername : String := ""
  proxyPassword : String := ""
  proxyHostname : String := ""
  proxyRetries : Nat := 0
  mainWindowOrigin : Option String := none
  deriving Repr, DecidableEq

/-- `'/login/checkauth?type=user'`. -/
def AUTH_STATUS_PATH : String := "/login/checkauth?type=user"

/-- `getBrowserLoginUrl(pod)`. -/
def getBrowserLoginUrl (pod : String) : String :=
  pod ++ "/login/sso/initsso?RelayState=" ++ pod ++
  "/client-bff/device-login/index.html?callbackScheme=symphony&action=login"

/-- Components returned by `whitelistHandler.parseDomain`. -/
structure ParsedDomain where
  subdomain : String
  domain : String
  tld : String
  deriving Repr, DecidableEq

/-- Split a character list at every `'.'`. -/
def splitDot : List Char → List (List Char)
  | [] => [[]]
  | c :: rest =>
    if c = '.' then [] :: splitDot rest
    else
      match splitDot rest with
      | [] => [[c]]
      | h :: t => (c :: h) :: t

/-- Modelled from the spec: `whitelistHandler.parseDomain` lives in
`common/whitelist-handler`, which is not part of this repository snapshot.
The spec says the address is parsed into subdomain / domain /
top-level-domain components, with `"acme.symphony.com"` giving subdomain
`"acme"`, domain `"symphony"`, tld `".com"`: split on `'.'`, the first
label is the subdomain, the second the domain, and the tld is the
remaining labels each prefixed with a dot. -/
def parseDomain (url : String) : ParsedDomain :=
  let parts := (splitDot url.toList).map String.mk
  { subdomain := parts.getD 0 ""
    domain := parts.getD 1 ""
    tld := String.join ((parts.drop 2).map fun p => "." ++ p) }

/-- One probe of the auth-status endpoint as seen by `loadPodUrl`'s
`fetch`: either a parsed JSON response or a rejection.  `loginHost` is the
`authInfo.host || authInfo.realm` delivered to the `onLogin` hook if a
proxy `login` event fired during this request (only possible when the hook
is attached, i.e. on a proxy-login attempt); `creds` is the
username/password the user enters into the credentials prompt, when the
failure opens one and the user completes it. -/
inductive ProbeStep where
  | success (authenticationType : String) (loginHost : Option String)
  | failure (errType : String) (errCode : String) (loginHost : Option String)
      (creds : Option (String × String))
  deriving Repr, DecidableEq

/-- Observable effects of the pod login flow. -/
inductive LEv where
  | probe (url : String) (proxyLogin : Bool)
  /-- The `onLogin` hook awaited `credentialsPromise` and supplied the
  stored username/password to the request. -/
  | supplyProxyCreds (username password : String)
  | newCredentialsPromise
  | createBasicAuthWindow (hostname : String) (isFirstAttempt : Bool)
  | resolveCredentials
  | openExternal (url : String)
  | setMainWindowOrigin (url : String)
  | loadURL (url : String)
  deriving Repr, DecidableEq

/-- The `onLogin` hook's state effect: when attached (`proxyLogin`) and a
login event fired, it records the challenging host in
`proxyDetails.hostname`. -/
def applyLoginHook (proxyLogin : Bool) (loginHost : Option String)
    (st : MainState) : MainState :=
  if proxyLogin then
    match loginHost with
    | some h => { st with proxyHostname := h }
    | none => st
  else st

/-- The `onLogin` hook's events: awaiting the pending credential promise
and answering the challenge with the stored credentials. -/
def loginHookEvents (proxyLogin : Bool) (loginHost : Option String)
    (st : MainState) : List LEv :=
  if proxyLogin then
    match loginHost with
    | some _ => [LEv.supplyProxyCreds st.proxyUsername st.proxyPassword]
    | none => []
  else []

/-- The failure classes that re-enter the login flow:
`error.type === 'proxy' && error.code === 'PROXY_AUTH_FAILED'`, or
`error.code === 'ERR_TOO_MANY_RETRIES'` while already in a proxy-login
attempt. -/
def retryTrigger (proxyLogin : Bool) (errType errCode : String) : Bool :=
  (errType == "proxy" && errCode == "PROXY_AUTH_FAILED") ||
  (errCode == "ERR_TOO_MANY_RETRIES" && proxyLogin)

/-- Whether `windowHandler.getMainWebContents()` exists and is not
destroyed. -/
structure LoginEnv where
  mainWebContentsOk : Bool
  deriving Repr, DecidableEq

/-- `loadPodUrl(proxyLogin)`: probe `formattedPodUrl + AUTH_STATUS_PATH`;
on an `'sso'` response open the external browser login, on any other
response load the pod origin into the main view and record it as the
view's origin; on a retry-triggering failure create a fresh
`credentialsPromise`, open the basic-auth prompt (first attempt iff no
retries have happened), bump the retry counter, and — once the user
supplies credentials — store them, resolve the promise and recurse with
the proxy-login flag set.  The world is the list of successive probe
outcomes; an empty list means the pending request has not completed. -/
def loadPodUrl (env : LoginEnv) (proxyLogin : Bool) (st : MainState) :
    List ProbeStep → MainState × List LEv
  | [] => (st, [LEv.probe (st.formattedPodUrl ++ AUTH_STATUS_PATH) proxyLogin])
  | step :: rest =>
    let probeEv := LEv.probe (st.formattedPodUrl ++ AUTH_STATUS_PATH) proxyLogin
    match step with
    | ProbeStep.success authType loginHost =>
      let st1 := applyLoginHook proxyLogin loginHost st
      let hookEv := loginHookEvents proxyLogin loginHost st
      if authType == "sso" then
        (st1, probeEv :: hookEv ++ [LEv.openExternal st.loginUrl])
      else if env.mainWebContentsOk then
        ({ st1 with mainWindowOrigin := some st.formattedPodUrl },
         probeEv :: hookEv ++
           [LEv.setMainWindowOrigin st.formattedPodUrl,
            LEv.loadURL st.formattedPodUrl])
      else
        (st1, probeEv :: hookEv)
    | ProbeStep.failure errType errCode loginHost creds =>
      let st1 := applyLoginHook proxyLogin loginHost st
      let hookEv := loginHookEvents proxyLogin loginHost st
      if retryTrigger proxyLogin errType errCode then
        let promptEv := [LEv.newCredentialsPromise,
          LEv.createBasicAuthWindow st1.proxyHostname (st1.proxyRetries == 0)]
        let st2 := { st1 with proxyRetries := st1.proxyRetries + 1 }
        match creds with
        | none =>
          -- prompt shown, user has not answered: flow is suspended
          (st2, probeEv :: hookEv ++ promptEv)
        | some (u, pw) =>
          let st3 := { st2 with proxyUsername := u, proxyPassword := pw }
          let r := loadPodUrl env true st3 rest
          (r.1, probeEv :: hookEv ++ promptEv ++ LEv.resolveCredentials :: r.2)
      else
        -- every other failure class is swallowed: no retry, no prompt
        (st1, probeEv :: hookEv)

/-! ## The two IPC entry points (`ipcMain.on` / `ipcMain.handle`) -/

/-- Read-only context of one dispatch: sender validity and the
collaborator reads the handlers perform. -/
structure DispatchEnv where
  /-- `isValidWindow(BrowserWindow.fromWebContents(event.sender)) ||
  isValidView(event.sender)`: the sender is a window or view the host
  process created and still tracks. -/
  senderValid : Bool
  /-- `getCommandLineArgs(process.argv, '--url=', false)`. -/
  argvUrl : Option String := none
  /-- The global-config `url`. -/
  globalConfigUrl : Option String := none
  mainWebContentsOk : Bool := false
  mainWindowOk : Bool := false
  hasAppMenu : Bool := false
  /-- `config.getConfigFields(['bringToFront']).bringToFront === ENABLED`. -/
  bringToFrontEnabled : Bool := false
  /-- The sender window exists and its `winName` is the main-window or
  welcome-screen name (`popupMenu` guard). -/
  senderIsMainOrWelcome : Bool := false
  /-- `mainWindow.isFullScreen()`. -/
  isFullScreen : Bool := false
  focusedWindowOk : Bool := false
  aeroGlass : Bool := false
  mediaCamera : String := ""
  mediaMicrophone : String := ""
  mediaScreen : String := ""
  desktopSources : List SourceInfo := []
  /-- `getWindowByName(arg.windowName)` found a live window. -/
  windowFound : Bool := false
  /-- `getContentWindowHandle(browserWin.getNativeWindowHandle())`. -/
  nativeHandle : Nat := 0
  citrixStatus : Nat := 0
  /-- The member names of the `AutoUpdateTrigger` enum. -/
  autoUpdateTriggers : List String := []
  deriving Repr

/-- `swift-search` is stubbed out in this source (`const { SSAPIBridge } =
{} as any` makes the constructor throw), so `swiftSearchInstance` is
always `undefined` and the swift-search commands are no-ops. -/
def swiftSearchAvailable : Bool := false

set_option maxHeartbeats 1600000 in
/-- Calls into collaborators performed by the dispatched handlers, in
program order.  `logApiCall` is the pre-dispatch redacted info record;
`logError` is the sender-validation error record naming the rejected
command tag. -/
inductive ApiAction where
  | logApiCall (rec : LogRecord)
  | logError (cmd : ApiCmd)
  | showBadgeCount (n : Int)
  | setNotificationCount (n : Int)
  | setPreloadWebContents
  | updateVersionInfo
  | registerLogRetriever (logName : Option String)
  | finalizeLogExports (logs : Option LogsInfo)
  | setDataUrl (dataUrl : String) (n : Int)
  | activate (windowName : Option String) (shouldFocus : Bool)
  | setLoggerWindow
  | setActivityDetection (period : Int)
  | setDownloadHandlerWindow
  | createNotificationSettingsWindow (windowName theme : String)
  | sanitizeWindow (windowName : String)
  | showPopupMenu
  | focusMainWebContents
  | updateLocale (locale : String)
  | handleKeyPress (keyCode : Int)
  | setMyPresence (status : Option String)
  | openScreenSnippet (hideOnCapture : Option Bool)
  | cancelScreenSnippet
  | closeWindow (windowType winKey : Option String)
  | createScreenSharingIndicator (displayId : String) (id : Int)
      (streamId : Option String)
  | downloadManagerAction (dmType : Option String) (path : String)
  | openDownloadedItem (id : String)
  | showDownloadedItem (id : String)
  | clearDownloadedItems
  | restartApp
  | setMeetingStatus (b : Bool)
  | preventDisplaySleep (b : Bool)
  | closeScreenPickerWindow
  | closeScreenSharingIndicator
  | setMemoryInfo (info : JsObj)
  | registerAnalyticsPreload
  | updateFeaturesForCloudConfig (cfg : Option JsObj)
  | buildMenu
  | updateSystemTrayPresence
  | setThumbarButtons
  | setThumbarButtonsEmpty
  | createScreenPickerWindow (sources : List SourceInfo) (id : Int)
  | showNotification (opts : NotificationData)
  | closeNotification (id : Int)
  | closeAllWindows
  | terminateC9Shell
  | signOutPresence
  | setZoomFactor (z : Int)
  | clipboardWrite (c : JsObj) (clipboardType : String)
  | closeMainWindow
  | minimizeMainWindow
  | maximizeMainWindow
  | unmaximizeMainWindow
  | setFullScreenOff
  | forceUnmaximize
  | updateUserConfigAutoConnect (v : Option Bool)
  | updateUserConfigUrl (u : Option String)
  | startLoadPod
  | connectC9Pipe (pipe : Option String)
  | writeC9Pipe (data : Option (List Nat))
  | closeC9Pipe
  | loadC9Shell
  | autoUpdateAndRestart
  | autoDownloadUpdate
  | checkUpdates (trigger : Option String)
  | showScreenShareDeniedDialog
  deriving Repr

/-- A value returned to the sender: `event.returnValue` on the
fire-and-forget channel (`getConfigUrl`) or the return value of an invoke
handler. -/
inductive RespValue where
  | configUrl (u : Option String)
  | originUrl (u : Option String)
  | boolVal (b : Bool)
  | mediaStatus (camera microphone screen : String)
  | sources (ss : List SourceInfo)
  | windowHandle (h : Nat)
  | citrix (s : Nat)
  deriving Repr

/-- The `browserLogin` pod-address choice: the `--url=` command-line
argument (with its 6-character prefix stripped), else the stored
user-config url, else the global-config url. -/
def browserLoginPodUrl (env : DispatchEnv) (userConfigUrl : Option String) :
    String :=
  if strTruthy env.argvUrl then ((env.argvUrl.getD "").drop 6)
  else if strTruthy userConfigUrl then userConfigUrl.getD ""
  else env.globalConfigUrl.getD ""

/-- The canonical HTTPS origin reassembled from the parsed pod address:
`https://${subdomain}.${domain}${tld}`. -/
def formatPodUrl (podUrl : String) : String :=
  let p := parseDomain podUrl
  "https://" ++ p.subdomain ++ "." ++ p.domain ++ p.tld

/-- The `ipcMain.on(apiName.symphonyApi, ...)` handler: validate the
sender, log the redacted record, then run the one matching case of the
switch.  Returns the new module state, the collaborator calls in order,
and the `event.returnValue` response if one was set. -/
def handleOn (env : DispatchEnv) (st : MainState) (arg : ApiArgs) :
    MainState × List ApiAction × Option RespValue :=
  if !env.senderValid then
    (st, [ApiAction.logError arg.cmd], none)
  else
    match logApiCallParams arg with
    | none =>
      -- the logging step threw; the dispatch aborts with no effect
      (st, [], none)
    | some rec =>
      let logA := ApiAction.logApiCall rec
      match arg.cmd with
      | ApiCmd.isOnline =>
        match arg.isOnline with
        | some b => ({ st with isOnline := b }, [logA], none)
        | none => (st, [logA], none)
      | ApiCmd.setBadgeCount =>
        match arg.count with
        | some n =>
          (st, [logA, ApiAction.showBadgeCount n, ApiAction.setNotificationCount n],
           none)
        | none => (st, [logA], none)
      | ApiCmd.registerProtocolHandler =>
        ({ st with isWebPageLoading := false, isLoggedIn := true },
         [logA, ApiAction.setPreloadWebContents, ApiAction.updateVersionInfo], none)
      | ApiCmd.registerLogRetriever =>
        (st, [logA, ApiAction.registerLogRetriever arg.logName], none)
      | ApiCmd.sendLogs =>
        (st, [logA, ApiAction.finalizeLogExports arg.logs], none)
      | ApiCmd.badgeDataUrl =>
        match arg.dataUrl with
        | some u =>
          match arg.count with
          | some n =>
            if n > 0 then (st, [logA, ApiAction.setDataUrl u n], none)
            else (st, [logA], none)
          | none => (st, [logA], none)
        | none => (st, [logA], none)
      | ApiCmd.activate =>
        match arg.windowName with
        | some w => (st, [logA, ApiAction.activate (some w) true], none)
        | none => (st, [logA], none)
      | ApiCmd.registerLogger =>
        (st, [logA, ApiAction.setLoggerWindow], none)
      | ApiCmd.registerActivityDetection =>
        match arg.period with
        | some p => (st, [logA, ApiAction.setActivityDetection p], none)
        | none => (st, [logA], none)
      | ApiCmd.registerDownloadHandler =>
        (st, [logA, ApiAction.setDownloadHandlerWindow], none)
      | ApiCmd.showNotificationSettings =>
        match arg.windowName with
        | some w =>
          let theme := if strTruthy arg.theme then arg.theme.getD "" else "light"
          (st, [logA, ApiAction.createNotificationSettingsWindow w theme], none)
        | none => (st, [logA], none)
      | ApiCmd.sanitize =>
        let acts :=
          match arg.windowName with
          | some w => [logA, ApiAction.sanitizeWindow w]
          | none => [logA]
        ({ st with isWebPageLoading := true }, acts, none)
      | ApiCmd.bringToFront =>
        if arg.reason == some "notification" then
          if env.bringToFrontEnabled then
            (st, [logA, ApiAction.activate arg.windowName false], none)
          else (st, [logA], none)
        else (st, [logA], none)
      | ApiCmd.openScreenPickerWindow =>
        match arg.sources, arg.id with
        | some ss, some (JsPrim.num n) =>
          (st, [logA, ApiAction.createScreenPickerWindow ss n], none)
        | _, _ => (st, [logA], none)
      | ApiCmd.popupMenu =>
        if env.senderIsMainOrWelcome then
          (st, [logA, ApiAction.showPopupMenu] ++
            (if env.mainWebContentsOk then [ApiAction.focusMainWebContents]
             else []), none)
        else (st, [logA], none)
      | ApiCmd.setLocale =>
        match arg.locale with
        | some l => (st, [logA, ApiAction.updateLocale l], none)
        | none => (st, [logA], none)
      | ApiCmd.keyPress =>
        match arg.keyCode with
        | some k => (st, [logA, ApiAction.handleKeyPress k], none)
        | none => (st, [logA], none)
      | ApiCmd.getMyPresence =>
        (st, [logA, ApiAction.setMyPresence arg.status], none)
      | ApiCmd.openScreenSnippet =>
        (st, [logA, ApiAction.openScreenSnippet arg.hideOnCapture], none)
      | ApiCmd.closeScreenSnippet =>
        (st, [logA, ApiAction.cancelScreenSnippet], none)
      | ApiCmd.closeWindow =>
        (st, [logA, ApiAction.closeWindow arg.windowType arg.winKey], none)
      | ApiCmd.openScreenSharingIndicator =>
        match arg.displayId, arg.id with
        | some d, some (JsPrim.num n) =>
          (st, [logA, ApiAction.createScreenSharingIndicator d n arg.streamId],
           none)
        | _, _ => (st, [logA], none)
      | ApiCmd.downloadManagerAction =>
        match arg.path with
        | some p => (st, [logA, ApiAction.downloadManagerAction arg.dmType p], none)
        | none => (st, [logA], none)
      | ApiCmd.openDownloadedItem =>
        match arg.id with
        | some (JsPrim.str s) => (st, [logA, ApiAction.openDownloadedItem s], none)
        | _ => (st, [logA], none)
      | ApiCmd.showDownloadedItem =>
        match arg.id with
        | some (JsPrim.str s) => (st, [logA, ApiAction.showDownloadedItem s], none)
        | _ => (st, [logA], none)
      | ApiCmd.clearDownloadedItems =>
        (st, [logA, ApiAction.clearDownloadedItems], none)
      | ApiCmd.restartApp =>
        (st, [logA, ApiAction.restartApp], none)
      | ApiCmd.setIsInMeeting =>
        match arg.isInMeeting with
        | some b =>
          (st, [logA, ApiAction.setMeetingStatus b, ApiAction.preventDisplaySleep b]
            ++ (if !b then
                  [ApiAction.closeScreenPickerWindow,
                   ApiAction.closeScreenSharingIndicator]
                else []), none)
        | none => (st, [logA], none)
      | ApiCmd.memoryInfo =>
        match arg.memoryInfo with
        | some m => (st, [logA, ApiAction.setMemoryInfo m], none)
        | none => (st, [logA], none)
      | ApiCmd.getConfigUrl =>
        (st, [logA], some (RespValue.configUrl env.globalConfigUrl))
      | ApiCmd.registerAnalyticsHandler =>
        (st, [logA, ApiAction.registerAnalyticsPreload], none)
      | ApiCmd.setCloudConfig =>
        (st, [logA, ApiAction.updateFeaturesForCloudConfig arg.cloudConfig] ++
          (if env.hasAppMenu then [ApiAction.buildMenu] else []), none)
      | ApiCmd.setIsMana =>
        match arg.isMana with
        | some b =>
          ({ st with isMana := b },
           [logA] ++
             (if env.mainWebContentsOk then
               [ApiAction.updateSystemTrayPresence] ++
                 (if env.mainWindowOk then [ApiAction.setThumbarButtons] else [])
              else []) ++
             (if env.hasAppMenu && b then [ApiAction.buildMenu] else []), none)
        | none => (st, [logA], none)
      | ApiCmd.showNotification =>
        match arg.notificationOpts with
        | some nd => (st, [logA, ApiAction.showNotification nd], none)
        | none => (st, [logA], none)
      | ApiCmd.closeNotification =>
        match arg.notificationId with
        | some n => (st, [logA, ApiAction.closeNotification n], none)
        | none => (st, [logA], none)
      | ApiCmd.closeAllWrapperWindows =>
        (st, [logA, ApiAction.closeAllWindows, ApiAction.terminateC9Shell] ++
          (if env.mainWindowOk then [ApiAction.setThumbarButtonsEmpty] else []) ++
          [ApiAction.signOutPresence], none)
      | ApiCmd.setZoomLevel =>
        match arg.zoomLevel with
        | some z =>
          if env.mainWebContentsOk then (st, [logA, ApiAction.setZoomFactor z], none)
          else (st, [logA], none)
        | none => (st, [logA], none)
      | ApiCmd.aboutAppClipBoardData =>
        match arg.clipboard with
        | some c =>
          if strTruthy arg.clipboardType then
            (st, [logA, ApiAction.clipboardWrite c (arg.clipboardType.getD "")],
             none)
          else (st, [logA], none)
        | none => (st, [logA], none)
      | ApiCmd.closeMainWindow =>
        (st, [logA] ++
          (if env.mainWebContentsOk then [ApiAction.focusMainWebContents] else [])
          ++ (if env.mainWindowOk then [ApiAction.closeMainWindow] else []), none)
      | ApiCmd.minimizeMainWindow =>
        (st, [logA] ++
          (if env.mainWebContentsOk then [ApiAction.focusMainWebContents] else [])
          ++ (if env.mainWindowOk then [ApiAction.minimizeMainWindow] else []),
         none)
      | ApiCmd.maximizeMainWindow =>
        (st, [logA] ++
          (if env.mainWindowOk then [ApiAction.maximizeMainWindow] else []) ++
          (if env.mainWebContentsOk then [ApiAction.focusMainWebContents] else []),
         none)
      | ApiCmd.unmaximizeMainWindow =>
        (st, [logA] ++
          (if env.mainWindowOk then
            (if env.isFullScreen then [ApiAction.setFullScreenOff]
             else [ApiAction.unmaximizeMainWindow, ApiAction.forceUnmaximize])
           else []) ++
          (if env.mainWebContentsOk then [ApiAction.focusMainWebContents] else []),
         none)
      | ApiCmd.browserLogin =>
        let configActs := [ApiAction.updateUserConfigAutoConnect
          arg.browserLoginAutoConnect]
        let st1 := { st with userConfigUrl :=
          (if !boolTruthy arg.isPodConfigured then arg.newPodUrl
           else st.userConfigUrl) }
        let configActs :=
          if !boolTruthy arg.isPodConfigured then
            configActs ++ [ApiAction.updateUserConfigUrl arg.newPodUrl]
          else configActs
        let podUrl := browserLoginPodUrl env st1.userConfigUrl
        let formatted := formatPodUrl podUrl
        let st2 := { st1 with
          formattedPodUrl := formatted
          loginUrl := getBrowserLoginUrl formatted }
        (st2, logA :: configActs ++ [ApiAction.startLoadPod], none)
      | ApiCmd.setBroadcastMessage =>
        -- swiftSearchInstance is never constructed in this source
        (st, [logA], none)
      | ApiCmd.handleSwiftSearchMessageEvents =>
        (st, [logA], none)
      | ApiCmd.connectCloud9Pipe =>
        (st, [logA, ApiAction.connectC9Pipe arg.pipe], none)
      | ApiCmd.writeCloud9Pipe =>
        (st, [logA, ApiAction.writeC9Pipe arg.data], none)
      | ApiCmd.closeCloud9Pipe =>
        (st, [logA, ApiAction.closeC9Pipe], none)
      | ApiCmd.launchCloud9 =>
        (st, [logA, ApiAction.loadC9Shell], none)
      | ApiCmd.terminateCloud9 =>
        (st, [logA, ApiAction.terminateC9Shell], none)
      | ApiCmd.updateAndRestart =>
        (st, [logA, ApiAction.autoUpdateAndRestart], none)
      | ApiCmd.downloadUpdate =>
        (st, [logA, ApiAction.autoDownloadUpdate], none)
      | ApiCmd.checkForUpdates =>
        if strTruthy arg.autoUpdateTrigger &&
            env.autoUpdateTriggers.contains (arg.autoUpdateTrigger.getD "") then
          (st, [logA, ApiAction.checkUpdates arg.autoUpdateTrigger], none)
        else
          (st, [logA, ApiAction.checkUpdates none], none)
      | _ =>
        -- default: unknown tags (and invoke-only tags) are silently ignored
        (st, [logA], none)

/-- The `ipcMain.handle(apiName.symphonyApi, ...)` handler: validate the
sender and compute the return value for the matching request/response
command; unknown tags return `undefined`. -/
def handleInvoke (env : DispatchEnv) (st : MainState) (arg : ApiArgs) :
    MainState × List ApiAction × Option RespValue :=
  if !env.senderValid then
    (st, [ApiAction.logError arg.cmd], none)
  else
    match arg.cmd with
    | ApiCmd.getCurrentOriginUrl =>
      (st, [],
       some (RespValue.originUrl
         (if env.mainWindowOk then st.mainWindowOrigin else none)))
    | ApiCmd.isAeroGlassEnabled =>
      (st, [], some (RespValue.boolVal env.aeroGlass))
    | ApiCmd.showScreenSharePermissionDialog =>
      if env.focusedWindowOk then
        (st, [ApiAction.showScreenShareDeniedDialog], none)
      else (st, [], none)
    | ApiCmd.getMediaAccessStatus =>
      (st, [],
       some (RespValue.mediaStatus env.mediaCamera env.mediaMicrophone
         env.mediaScreen))
    | ApiCmd.getSources =>
      (st, [], some (RespValue.sources env.desktopSources))
    | ApiCmd.getNativeWindowHandle =>
      if env.windowFound then
        (st, [], some (RespValue.windowHandle env.nativeHandle))
      else (st, [], none)
    | ApiCmd.getCitrixMediaRedirectionStatus =>
      (st, [], some (RespValue.citrix env.citrixStatus))
    | _ => (st, [], none)

/-! ## Helper predicates and sample inputs -/

/-- Whether an event modifies the always-on-top window property. -/
def isAotEv : SEv → Bool
  | SEv.updateAlwaysOnTop _ => true
  | _ => false

/-- Whether an event deletes a file. -/
def isDeleteEv : SEv → Bool
  | SEv.deleteFile _ => true
  | _ => false

/-- A Windows capture context with a live always-on-top main window and the
classic (non-Mana) client. -/
def snippetEnvWin : SnippetEnv :=
  { isMac := false, isWindowsOS := true, isLinux := false, isMana := false
    mainWindowExists := true, mainWindowAlwaysOnTop := true
    locale := "en-US", tempDir := "/tmp/userData/temp"
    captureUtil := "ScreenSnippet.exe", focusedWindow := some 3
    focusedWindowExists := true, timestamp := 1544025391698 }

/-- A macOS capture context without a main window. -/
def snippetEnvMac : SnippetEnv :=
  { isMac := true, isWindowsOS := false, isLinux := false, isMana := false
    mainWindowExists := false, mainWindowAlwaysOnTop := false
    locale := "en-US", tempDir := "/tmp"
    captureUtil := "/usr/sbin/screencapture", focusedWindow := none
    focusedWindowExists := false, timestamp := 7 }

/-- A session state with a live previous capture process. -/
def snippetStateBusy : ScreenSnippetState := { child := some 7 }

/-- A world where the tool exits normally and wrote two bytes. -/
def captureWorldOk : CaptureWorld :=
  { execKilled := false, newHandle := 9, fileContents := some [72, 105]
    imageDims := (none, none) }

/-- A world where the in-flight process was killed although the output
file had already been written. -/
def captureWorldKilled : CaptureWorld :=
  { execKilled := true, newHandle := 9, fileContents := some [0]
    imageDims := (none, none) }

/-- A world where the tool exited normally but produced no file (user
aborted the selection). -/
def captureWorldNoFile : CaptureWorld :=
  { execKilled := false, newHandle := 9, fileContents := none
    imageDims := (none, none) }

/-- A login environment with a live main web contents. -/
def loginEnvOk : LoginEnv := { mainWebContentsOk := true }

/-- A module state after `browserLogin` resolved the acme pod. -/
def mainStateAcme : MainState :=
  { formattedPodUrl := "https://acme.symphony.com"
    loginUrl := getBrowserLoginUrl "https://acme.symphony.com" }

/-! ## Base64 lemmas -/

theorem sextetVal_sextetChar : ∀ n, n < 64 → sextetVal (sextetChar n) = n := by
  decide

theorem sextetChar_ne_pad : ∀ n, n < 64 → sextetChar n ≠ '=' := by
  decide

/-- Base64 decoding is a left inverse of encoding on byte lists. -/
theorem base64_list_roundtrip : ∀ bs : List Nat, (∀ b ∈ bs, b < 256) →
    base64DecodeList (base64EncodeList bs) = bs
  | [], _ => rfl
  | [a], h => by
    have ha : a < 256 := h a (by simp)
    simp only [base64EncodeList, base64DecodeList, if_true]
    rw [sextetVal_sextetChar _ (by omega), sextetVal_sextetChar _ (by omega)]
    simp only [List.cons.injEq, and_true]
    omega
  | [a, b], h => by
    have ha : a < 256 := h a (by simp)
    have hb : b < 256 := h b (by simp)
    simp only [base64EncodeList, base64DecodeList, if_true]
    rw [if_neg (sextetChar_ne_pad (b % 16 * 4) (by omega))]
    rw [sextetVal_sextetChar _ (by omega), sextetVal_sextetChar _ (by omega),
        sextetVal_sextetChar _ (by omega)]
    simp only [List.cons.injEq, and_true]
    constructor <;> omega
  | a :: b :: c :: rest, h => by
    have ha : a < 256 := h a (by simp)
    have hb : b < 256 := h b (by simp)
    have hc : c < 256 := h c (by simp)
    have hrest : ∀ x ∈ rest, x < 256 := fun x hx => h x (by simp [hx])
    simp only [base64EncodeList, base64DecodeList]
    rw [if_neg (sextetChar_ne_pad (b % 16 * 4 + c / 64) (by omega)),
        if_neg (sextetChar_ne_pad (c % 64) (by omega))]
    rw [sextetVal_sextetChar _ (by omega), sextetVal_sextetChar _ (by omega),
        sextetVal_sextetChar _ (by omega), sextetVal_sextetChar _ (by omega)]
    rw [base64_list_roundtrip rest hrest]
    simp only [List.cons.injEq, and_true]
    refine ⟨by omega, by omega, by omega⟩

/-! ## Screen snippet session lemmas -/

/-- Every branch of the post-spawn continuation leaves the child handle
untouched. -/
theorem captureFinish_child (env : SnippetEnv) (st : ScreenSnippetState)
    (out : String) (w : CaptureWorld) :
    (captureFinish env st out w).1.child = st.child := by
  simp only [captureFinish, verifyAndUpdateAlwaysOnTop]
  split
  · split <;> rfl
  · split
    · rfl
    · split <;> rfl

/-- Claim C1: every call to `capture` with a stored external-process handle
kills that handle before spawning the new capture process (the only events
preceding the kill are always-on-top updates, and the spawn is the event
immediately after the kill), and afterwards the session stores exactly the
new process handle. -/
theorem capture_kill_before_spawn :
    ∀ (env : SnippetEnv) (st : ScreenSnippetState) (w : CaptureWorld) (h : Nat),
      st.child = some h →
      (∃ pre post,
        (capture env st w).2 =
          pre ++ SEv.killChild h :: SEv.spawn env.captureUtil
            (captureArgs env (captureOutputPath env)) w.newHandle :: post ∧
        ∀ e ∈ pre, ∃ b, e = SEv.updateAlwaysOnTop b) ∧
      (capture env st w).1.child = some w.newHandle := by
  intro env st w h hc
  constructor
  · simp only [capture, killChildProcess, hc, List.append_assoc,
      List.cons_append, List.singleton_append]
    refine ⟨_, _, rfl, ?_⟩
    intro e he
    split at he
    · simp only [List.mem_singleton] at he
      exact ⟨false, he⟩
    · simp at he
  · simp only [capture, captureFinish_child]

/-- Claim C1 witness: a concrete capture with a live previous handle. -/
theorem capture_kill_before_spawn_witness :
    snippetStateBusy.child = some 7 ∧
    ((∃ pre post,
        (capture snippetEnvWin snippetStateBusy captureWorldOk).2 =
          pre ++ SEv.killChild 7 :: SEv.spawn snippetEnvWin.captureUtil
            (captureArgs snippetEnvWin (captureOutputPath snippetEnvWin))
            captureWorldOk.newHandle :: post ∧
        ∀ e ∈ pre, ∃ b, e = SEv.updateAlwaysOnTop b) ∧
      (capture snippetEnvWin snippetStateBusy captureWorldOk).1.child =
        some captureWorldOk.newHandle) :=
  ⟨rfl, capture_kill_before_spawn snippetEnvWin snippetStateBusy
    captureWorldOk 7 rfl⟩

/-- Claim C2 counterexample: on the external-process-kill exit path the
`catch` block only restores always-on-top — no file deletion is attempted,
even though in this world the capture tool had already created the output
file (`fileContents` is present).  So "the temp output file, if one was
created, is deleted before the attempt is considered finished" fails on
the kill path. -/
theorem capture_kill_path_no_delete_counterexample :
    captureWorldKilled.fileContents.isSome = true ∧
    captureWorldKilled.execKilled = true ∧
    (capture snippetEnvWin {} captureWorldKilled).2.filter isDeleteEv
      = [] := by
  decide

/-- Claim C2 (amended): for every non-Mana capture attempt, the
always-on-top setting is restored to its pre-capture value on every exit
path — the trace's always-on-top updates are exactly the suspend/restore
pair when the setting was on, and empty otherwise, and the flag ends
cleared — and on the successful-delivery and missing-file exit paths
(exec not killed) the temp output file is deleted; on the kill path no
deletion is attempted. -/
theorem capture_cleanup_amended :
    ∀ (env : SnippetEnv) (st : ScreenSnippetState) (w : CaptureWorld),
      env.isMana = false → st.shouldUpdateAlwaysOnTop = false →
      ((capture env st w).1.shouldUpdateAlwaysOnTop = false) ∧
      ((capture env st w).2.filter isAotEv =
        if env.mainWindowExists && env.isWindowsOS && env.mainWindowAlwaysOnTop
        then [SEv.updateAlwaysOnTop false, SEv.updateAlwaysOnTop true]
        else []) ∧
      (w.execKilled = false →
        SEv.deleteFile (captureOutputPath env) ∈ (capture env st w).2) := by
  intro env st w hm hf
  refine ⟨?_, ?_, ?_⟩
  · rcases hEx : w.execKilled with _ | _ <;>
      rcases hAot : env.mainWindowAlwaysOnTop with _ | _ <;>
      rcases hWin : env.mainWindowExists && env.isWindowsOS with _ | _ <;>
      simp [capture, captureFinish, hm, hf, hEx, hAot, hWin,
        verifyAndUpdateAlwaysOnTop, convertFileToData, readResultOf]
  · simp only [capture, captureFinish, hm, verifyAndUpdateAlwaysOnTop,
      convertFileToData, readResultOf, hf]
    rcases hEx : w.execKilled with _ | _ <;>
      rcases hWin : env.mainWindowExists && env.isWindowsOS with _ | _ <;>
      rcases hAot : env.mainWindowAlwaysOnTop with _ | _ <;>
      simp [hEx, hWin, hAot, isAotEv, killChildProcess, List.filter_append] <;>
      cases st.child <;>
      simp [isAotEv] <;>
      cases env.focusedWindow <;>
      simp [isAotEv]
  · intro hEx
    simp [capture, captureFinish, hm, hEx, verifyAndUpdateAlwaysOnTop,
      convertFileToData, readResultOf]

/-- Claim C2 (amended) witness: concrete non-Mana capture on the success
path. -/
theorem capture_cleanup_amended_witness :
    snippetEnvWin.isMana = false ∧
    (({} : ScreenSnippetState)).shouldUpdateAlwaysOnTop = false ∧
    captureWorldOk.execKilled = false ∧
    (((capture snippetEnvWin {} captureWorldOk).1.shouldUpdateAlwaysOnTop
        = false) ∧
     ((capture snippetEnvWin {} captureWorldOk).2.filter isAotEv =
        if snippetEnvWin.mainWindowExists && snippetEnvWin.isWindowsOS &&
            snippetEnvWin.mainWindowAlwaysOnTop
        then [SEv.updateAlwaysOnTop false, SEv.updateAlwaysOnTop true]
        else []) ∧
     SEv.deleteFile (captureOutputPath snippetEnvWin) ∈
        (capture snippetEnvWin {} captureWorldOk).2) :=
  ⟨rfl, rfl, rfl,
    (capture_cleanup_amended snippetEnvWin {} captureWorldOk rfl rfl).1,
    (capture_cleanup_amended snippetEnvWin {} captureWorldOk rfl rfl).2.1,
    (capture_cleanup_amended snippetEnvWin {} captureWorldOk rfl rfl).2.2 rfl⟩

/-- Claim C10: on a non-Windows platform, or when no main window exists,
`capture` never sets `shouldUpdateAlwaysOnTop` (starting from a clear
flag), never touches the always-on-top property on any exit path, and
`verifyAndUpdateAlwaysOnTop` is a no-op whenever the flag is clear. -/
theorem capture_aot_platform_conditional :
    ∀ (env : SnippetEnv) (st : ScreenSnippetState) (w : CaptureWorld),
      (env.isWindowsOS = false ∨ env.mainWindowExists = false) →
      st.shouldUpdateAlwaysOnTop = false →
      ((capture env st w).1.shouldUpdateAlwaysOnTop = false) ∧
      ((capture env st w).2.filter isAotEv = []) ∧
      (∀ st2 : ScreenSnippetState, st2.shouldUpdateAlwaysOnTop = false →
        verifyAndUpdateAlwaysOnTop st2 = (st2, [])) := by
  intro env st w hp hf
  have hWin : (env.mainWindowExists && env.isWindowsOS) = false := by
    rcases hp with h | h <;> simp [h]
  refine ⟨?_, ?_, ?_⟩
  · rcases hEx : w.execKilled with _ | _ <;>
      rcases hMana : env.isMana with _ | _ <;>
      simp [capture, captureFinish, hf, hEx, hMana, hWin,
        verifyAndUpdateAlwaysOnTop, convertFileToData, readResultOf]
  · rcases hEx : w.execKilled with _ | _ <;>
      rcases hMana : env.isMana with _ | _ <;>
      simp [capture, captureFinish, hf, hEx, hMana, hWin,
        verifyAndUpdateAlwaysOnTop, convertFileToData, readResultOf,
        killChildProcess, isAotEv, List.filter_append] <;>
      cases st.child <;>
      simp [isAotEv] <;>
      cases env.focusedWindow <;>
      simp [isAotEv]
  · intro st2 h2
    simp [verifyAndUpdateAlwaysOnTop, h2]

/-- Claim C10 witness: a concrete macOS capture without a main window. -/
theorem capture_aot_platform_conditional_witness :
    snippetEnvMac.isWindowsOS = false ∧
    (({} : ScreenSnippetState)).shouldUpdateAlwaysOnTop = false ∧
    ((capture snippetEnvMac {} captureWorldOk).1.shouldUpdateAlwaysOnTop
        = false) ∧
    ((capture snippetEnvMac {} captureWorldOk).2.filter isAotEv = []) ∧
    verifyAndUpdateAlwaysOnTop {} = ({}, []) :=
  ⟨rfl, rfl,
    (capture_aot_platform_conditional snippetEnvMac {} captureWorldOk
      (Or.inl rfl) rfl).1,
    (capture_aot_platform_conditional snippetEnvMac {} captureWorldOk
      (Or.inl rfl) rfl).2.1,
    (capture_aot_platform_conditional snippetEnvMac {} captureWorldOk
      (Or.inl rfl) rfl).2.2 {} rfl⟩

/-- Claim C9: a successfully read output file is delivered as
`{message:'success', data: base64 of the file bytes, type:'image/png;base64'}`;
base64-decoding the data reproduces the file bytes exactly; a missing
output file (`ENOENT`) yields `{message, type:'ERROR'}` with no data
field; and on the missing-file path `capture` still delivers that ERROR
payload to the view rather than failing. -/
theorem convertFileToData_payloads :
    (∀ (env : SnippetEnv) (st : ScreenSnippetState) (f : String)
        (bytes : List Nat), st.outputFileName = some f →
      (convertFileToData env st (ReadResult.ok bytes)).1 =
        { message := "success", data := some (base64Encode bytes),
          type := "image/png;base64" }) ∧
    (∀ bytes : List Nat, (∀ b ∈ bytes, b < 256) →
      base64Decode (base64Encode bytes) = bytes) ∧
    (∀ (env : SnippetEnv) (st : ScreenSnippetState) (f : String),
      st.outputFileName = some f →
      (convertFileToData env st ReadResult.enoent).1 =
        { message := "file does not exist", data := none, type := "ERROR" }) ∧
    (∀ (env : SnippetEnv) (st : ScreenSnippetState) (w : CaptureWorld),
      env.isMana = false → w.execKilled = false → w.fileContents = none →
      SEv.sendSnippetData
          { message := "file does not exist", data := none, type := "ERROR" } ∈
        (capture env st w).2) := by
  refine ⟨?_, ?_, ?_, ?_⟩
  · intro env st f bytes h
    simp [convertFileToData, h]
  · intro bytes h
    simpa [base64Decode, base64Encode] using base64_list_roundtrip bytes h
  · intro env st f h
    simp [convertFileToData, h]
  · intro env st w hm hEx hFile
    simp [capture, captureFinish, hm, hEx, hFile, convertFileToData,
      readResultOf, verifyAndUpdateAlwaysOnTop]

/-- Claim C9 witness: concrete two-byte file contents. -/
theorem convertFileToData_payloads_witness :
    ((convertFileToData snippetEnvWin { outputFileName := some "/tmp/s.png" }
        (ReadResult.ok [72, 105])).1 =
      { message := "success", data := some (base64Encode [72, 105]),
        type := "image/png;base64" }) ∧
    (base64Decode (base64Encode [72, 105]) = [72, 105]) ∧
    ((convertFileToData snippetEnvWin { outputFileName := some "/tmp/s.png" }
        ReadResult.enoent).1 =
      { message := "file does not exist", data := none, type := "ERROR" }) ∧
    (SEv.sendSnippetData
        { message := "file does not exist", data := none, type := "ERROR" } ∈
      (capture snippetEnvWin {} captureWorldNoFile).2) :=
  ⟨convertFileToData_payloads.1 snippetEnvWin
      { outputFileName := some "/tmp/s.png" } "/tmp/s.png" [72, 105] rfl,
   convertFileToData_payloads.2.1 [72, 105] (by decide),
   convertFileToData_payloads.2.2.1 snippetEnvWin
      { outputFileName := some "/tmp/s.png" } "/tmp/s.png" rfl,
   convertFileToData_payloads.2.2.2 snippetEnvWin {} captureWorldNoFile
      rfl rfl rfl⟩

/-! ## Dispatcher lemmas -/

/-- Claim C6: the pre-dispatch log record redacts every sensitive field.
For `showNotification` the record is independent of the notification
title, body and data (they are all replaced by `'hidden'`); for
`badgeDataUrl` it is independent of the data URL; for
`openScreenPickerWindow` it is independent of the source thumbnails; for
`sendLogs` it is independent of the log-file contents; and for
`writeCloud9Pipe` the record carries only the base64 encoding of the raw
payload bytes, never the raw bytes themselves. -/
theorem logApiCallParams_redaction :
    (∀ (a : ApiArgs) (nd : NotificationData) (t b d t2 b2 d2 : String),
      logApiCallParams { a with
          cmd := ApiCmd.showNotification
          notificationOpts := some { nd with title := t, body := b, data := d } }
        = logApiCallParams { a with
          cmd := ApiCmd.showNotification
          notificationOpts :=
            some { nd with title := t2, body := b2, data := d2 } }) ∧
    (∀ (a : ApiArgs) (nd : NotificationData),
      logApiCallParams { a with
          cmd := ApiCmd.showNotification
          notificationOpts := some nd }
        = some (LogRecord.notifProps { nd with
            title := "hidden", body := "hidden", data := "hidden" })) ∧
    (∀ (a : ApiArgs) (u u2 : String),
      logApiCallParams { a with cmd := ApiCmd.badgeDataUrl, dataUrl := some u }
        = logApiCallParams { a with
            cmd := ApiCmd.badgeDataUrl
            dataUrl := some u2 }) ∧
    (∀ (a : ApiArgs) (u : String),
      logApiCallParams { a with cmd := ApiCmd.badgeDataUrl, dataUrl := some u }
        = some (LogRecord.argProps { a with
            cmd := ApiCmd.badgeDataUrl
            dataUrl := some "hidden" })) ∧
    (∀ (a : ApiArgs) (ss : List SourceInfo) (f g : SourceInfo → String),
      logApiCallParams { a with
          cmd := ApiCmd.openScreenPickerWindow
          sources := some (ss.map fun s => { s with thumbnail := f s }) }
        = logApiCallParams { a with
            cmd := ApiCmd.openScreenPickerWindow
            sources := some (ss.map fun s => { s with thumbnail := g s }) }) ∧
    (∀ (a : ApiArgs) (ss : List SourceInfo),
      logApiCallParams { a with
          cmd := ApiCmd.openScreenPickerWindow
          sources := some ss }
        = some (LogRecord.argProps { a with
            cmd := ApiCmd.openScreenPickerWindow
            sources := some (ss.map fun s =>
              { s with thumbnail := "hidden" }) })) ∧
    (∀ (a : ApiArgs) (l : LogsInfo) (lf lf2 : List (String × String)),
      logApiCallParams { a with
          cmd := ApiCmd.sendLogs
          logs := some { l with logFiles := lf } }
        = logApiCallParams { a with
            cmd := ApiCmd.sendLogs
            logs := some { l with logFiles := lf2 } }) ∧
    (∀ (a : ApiArgs) (l : LogsInfo),
      logApiCallParams { a with cmd := ApiCmd.sendLogs, logs := some l }
        = some (LogRecord.sendLogsProps l.rest "hidden")) ∧
    (∀ (a : ApiArgs) (bytes : List Nat),
      logApiCallParams { a with
          cmd := ApiCmd.writeCloud9Pipe
          data := some bytes }
        = some (LogRecord.pipeProps { a with
            cmd := ApiCmd.writeCloud9Pipe
            data := none } (base64Encode bytes))) := by
  refine ⟨?_, ?_, ?_, ?_, ?_, ?_, ?_, ?_, ?_⟩ <;> intros <;>
    first
      | rfl
      | simp [logApiCallParams, List.map_map, Function.comp]

/-- Claim C7: a message whose tag is outside the closed set of known
commands is silently ignored by both entry points: the state is
unchanged, no collaborator call is made (only the info-level redacted log
record is written on the fire-and-forget channel), no response is
produced, and no error record is emitted. -/
theorem unknown_cmd_silently_ignored :
    ∀ (env : DispatchEnv) (st : MainState) (a : ApiArgs) (s : String),
      (handleOn { env with senderValid := true } st
          { a with cmd := ApiCmd.unknown s }
        = (st, [ApiAction.logApiCall
            (LogRecord.argProps { a with cmd := ApiCmd.unknown s })], none)) ∧
      (handleInvoke { env with senderValid := true } st
          { a with cmd := ApiCmd.unknown s }
        = (st, [], none)) := by
  intro env st a s
  exact ⟨rfl, rfl⟩

/-- Claim C8: a message from a sender the host did not create is dropped
by both entry points: an error record naming the rejected command tag is
logged, no handler runs, the state is unchanged and no response is
produced. -/
theorem invalid_sender_dropped :
    ∀ (env : DispatchEnv) (st : MainState) (a : ApiArgs),
      (handleOn { env with senderValid := false } st a
        = (st, [ApiAction.logError a.cmd], none)) ∧
      (handleInvoke { env with senderValid := false } st a
        = (st, [ApiAction.logError a.cmd], none)) := by
  intro env st a
  exact ⟨rfl, rfl⟩

/-- Claim C5: the `browserLogin` handler picks the pod address with
priority command-line `--url=` argument (prefix stripped), then the
stored user-config url (as just (re)written when the pod was not yet
configured), then the global-config url; and the canonical origin is
`"https://" ++ subdomain ++ "." ++ domain ++ tld`, which for
`"acme.symphony.com"` is exactly `"https://acme.symphony.com"`. -/
theorem browserLogin_pod_priority_and_origin :
    (∀ (env : DispatchEnv) (st : MainState) (a : ApiArgs),
      (handleOn { env with senderValid := true } st
            { a with cmd := ApiCmd.browserLogin }).1.formattedPodUrl =
        formatPodUrl
          (if strTruthy env.argvUrl then (env.argvUrl.getD "").drop 6
           else if strTruthy (if !boolTruthy a.isPodConfigured then a.newPodUrl
               else st.userConfigUrl) then
             (if !boolTruthy a.isPodConfigured then a.newPodUrl
              else st.userConfigUrl).getD ""
           else env.globalConfigUrl.getD "") ∧
      (handleOn { env with senderValid := true } st
            { a with cmd := ApiCmd.browserLogin }).1.loginUrl =
        getBrowserLoginUrl
          ((handleOn { env with senderValid := true } st
            { a with cmd := ApiCmd.browserLogin }).1.formattedPodUrl)) ∧
    parseDomain "acme.symphony.com" =
      { subdomain := "acme", domain := "symphony", tld := ".com" } ∧
    formatPodUrl "acme.symphony.com" = "https://acme.symphony.com" := by
  refine ⟨fun env st a => ⟨rfl, rfl⟩, by decide, by decide⟩

/-! ## Pod login flow lemmas -/

/-- `loadPodUrl` always issues the probe of the canonical origin's
auth-status endpoint first, with its proxy-login flag. -/
theorem loadPodUrl_head_probe (env : LoginEnv) (p : Bool) (st : MainState)
    (ws : List ProbeStep) :
    ∃ tl, (loadPodUrl env p st ws).2 =
      LEv.probe (st.formattedPodUrl ++ AUTH_STATUS_PATH) p :: tl := by
  cases ws with
  | nil => exact ⟨_, rfl⟩
  | cons step rest =>
    cases step with
    | success authType lh =>
      simp only [loadPodUrl]
      split
      · exact ⟨_, rfl⟩
      · split
        · exact ⟨_, rfl⟩
        · exact ⟨_, rfl⟩
    | failure t c lh creds =>
      simp only [loadPodUrl]
      split
      · cases creds with
        | none => exact ⟨_, rfl⟩
        | some uv =>
          cases uv
          exact ⟨_, rfl⟩
      · exact ⟨_, rfl⟩

/-- The `onLogin` hook only touches the stored proxy hostname. -/
theorem applyLoginHook_formattedPodUrl (p : Bool) (lh : Option String)
    (st : MainState) :
    (applyLoginHook p lh st).formattedPodUrl = st.formattedPodUrl := by
  cases p <;> cases lh <;> rfl

/-- Claim C3: a retry-triggering probe failure (proxy auth rejected, or
retry exhaustion during a proxy-login attempt) creates exactly one new
pending credential computation and exactly one credential prompt (first
attempt iff the retry counter was 0) and bumps the retry counter by
exactly 1 even before the user answers; once the user supplies
credentials they are stored, the pending computation is resolved exactly
once, and the flow recurses — whose first event is a re-probe of the same
canonical origin with the proxy-login flag set; every other failure class
produces no prompt, no retry and no state change beyond the login hook. -/
theorem loadPodUrl_proxy_retry :
    ∀ (env : LoginEnv) (p : Bool) (st : MainState) (rest : List ProbeStep)
      (t c : String) (lh : Option String) (u pw : String),
      (retryTrigger p t c = true →
        loadPodUrl env p st (ProbeStep.failure t c lh (some (u, pw)) :: rest) =
          ((loadPodUrl env true { applyLoginHook p lh st with
              proxyRetries := (applyLoginHook p lh st).proxyRetries + 1
              proxyUsername := u
              proxyPassword := pw } rest).1,
           LEv.probe (st.formattedPodUrl ++ AUTH_STATUS_PATH) p ::
             loginHookEvents p lh st ++
             [LEv.newCredentialsPromise,
              LEv.createBasicAuthWindow (applyLoginHook p lh st).proxyHostname
                ((applyLoginHook p lh st).proxyRetries == 0)] ++
             LEv.resolveCredentials ::
               (loadPodUrl env true { applyLoginHook p lh st with
                  proxyRetries := (applyLoginHook p lh st).proxyRetries + 1
                  proxyUsername := u
                  proxyPassword := pw } rest).2)) ∧
      (retryTrigger p t c = true →
        ∃ tl, (loadPodUrl env true { applyLoginHook p lh st with
            proxyRetries := (applyLoginHook p lh st).proxyRetries + 1
            proxyUsername := u
            proxyPassword := pw } rest).2 =
          LEv.probe (st.formattedPodUrl ++ AUTH_STATUS_PATH) true :: tl) ∧
      (retryTrigger p t c = true →
        loadPodUrl env p st (ProbeStep.failure t c lh none :: rest) =
          ({ applyLoginHook p lh st with
              proxyRetries := (applyLoginHook p lh st).proxyRetries + 1 },
           LEv.probe (st.formattedPodUrl ++ AUTH_STATUS_PATH) p ::
             loginHookEvents p lh st ++
             [LEv.newCredentialsPromise,
              LEv.createBasicAuthWindow (applyLoginHook p lh st).proxyHostname
                ((applyLoginHook p lh st).proxyRetries == 0)])) ∧
      (retryTrigger p t c = false → ∀ creds,
        loadPodUrl env p st (ProbeStep.failure t c lh creds :: rest) =
          (applyLoginHook p lh st,
           [LEv.probe (st.formattedPodUrl ++ AUTH_STATUS_PATH) p] ++
             loginHookEvents p lh st)) := by
  intro env p st rest t c lh u pw
  refine ⟨?_, ?_, ?_, ?_⟩
  · intro h
    simp only [loadPodUrl, h, if_true]
  · intro _
    have h2 := loadPodUrl_head_probe env true { applyLoginHook p lh st with
      proxyRetries := (applyLoginHook p lh st).proxyRetries + 1
      proxyUsername := u
      proxyPassword := pw } rest
    simpa [applyLoginHook_formattedPodUrl] using h2
  · intro h
    simp only [loadPodUrl, h, if_true]
  · intro h creds
    simp only [loadPodUrl, h, Bool.false_eq_true, if_false]
    rfl

/-- Claim C4: an `'sso'` auth-status response opens the computed browser
login URL externally and never loads the origin into the main view; any
other authentication type loads the canonical pod origin into the main
content view and records it as the view's origin. -/
theorem loadPodUrl_auth_type :
    ∀ (env : LoginEnv) (p : Bool) (st : MainState) (rest : List ProbeStep)
      (lh : Option String),
      (loadPodUrl env p st (ProbeStep.success "sso" lh :: rest) =
        (applyLoginHook p lh st,
         LEv.probe (st.formattedPodUrl ++ AUTH_STATUS_PATH) p ::
           loginHookEvents p lh st ++ [LEv.openExternal st.loginUrl])) ∧
      (∀ u, LEv.loadURL u ∉
        (loadPodUrl env p st (ProbeStep.success "sso" lh :: rest)).2) ∧
      (∀ u, LEv.setMainWindowOrigin u ∉
        (loadPodUrl env p st (ProbeStep.success "sso" lh :: rest)).2) ∧
      (∀ authType, authType ≠ "sso" → env.mainWebContentsOk = true →
        loadPodUrl env p st (ProbeStep.success authType lh :: rest) =
          ({ applyLoginHook p lh st with
              mainWindowOrigin := some st.formattedPodUrl },
           LEv.probe (st.formattedPodUrl ++ AUTH_STATUS_PATH) p ::
             loginHookEvents p lh st ++
             [LEv.setMainWindowOrigin st.formattedPodUrl,
              LEv.loadURL st.formattedPodUrl])) := by
  intro env p st rest lh
  have hsso : loadPodUrl env p st (ProbeStep.success "sso" lh :: rest) =
      (applyLoginHook p lh st,
       LEv.probe (st.formattedPodUrl ++ AUTH_STATUS_PATH) p ::
         loginHookEvents p lh st ++ [LEv.openExternal st.loginUrl]) := rfl
  refine ⟨hsso, ?_, ?_, ?_⟩
  · intro u
    rw [hsso]
    cases p <;> cases lh <;> simp [loginHookEvents]
  · intro u
    rw [hsso]
    cases p <;> cases lh <;> simp [loginHookEvents]
  · intro authType hne hok
    have hbeq : (authType == "sso") = false := by
      simpa using hne
    simp only [loadPodUrl, hbeq, Bool.false_eq_true, if_false, hok, if_true]

/-- Claim C3 witness: one concrete proxy-auth failure with supplied
credentials, one suspended prompt, and one swallowed unrelated failure. -/
theorem loadPodUrl_proxy_retry_witness :
    retryTrigger false "proxy" "PROXY_AUTH_FAILED" = true ∧
    retryTrigger false "net" "TIMEOUT" = false ∧
    (loadPodUrl loginEnvOk false mainStateAcme
        [ProbeStep.failure "proxy" "PROXY_AUTH_FAILED" none
          (some ("user", "pw"))] =
      ((loadPodUrl loginEnvOk true
          { applyLoginHook false none mainStateAcme with
            proxyRetries :=
              (applyLoginHook false none mainStateAcme).proxyRetries + 1
            proxyUsername := "user"
            proxyPassword := "pw" } []).1,
       LEv.probe (mainStateAcme.formattedPodUrl ++ AUTH_STATUS_PATH) false ::
         loginHookEvents false none mainStateAcme ++
         [LEv.newCredentialsPromise,
          LEv.createBasicAuthWindow
            (applyLoginHook false none mainStateAcme).proxyHostname
            ((applyLoginHook false none mainStateAcme).proxyRetries == 0)] ++
         LEv.resolveCredentials ::
           (loadPodUrl loginEnvOk true
              { applyLoginHook false none mainStateAcme with
                proxyRetries :=
                  (applyLoginHook false none mainStateAcme).proxyRetries + 1
                proxyUsername := "user"
                proxyPassword := "pw" } []).2)) ∧
    (loadPodUrl loginEnvOk false mainStateAcme
        [ProbeStep.failure "proxy" "PROXY_AUTH_FAILED" none none] =
      ({ applyLoginHook false none mainStateAcme with
          proxyRetries :=
            (applyLoginHook false none mainStateAcme).proxyRetries + 1 },
       LEv.probe (mainStateAcme.formattedPodUrl ++ AUTH_STATUS_PATH) false ::
         loginHookEvents false none mainStateAcme ++
         [LEv.newCredentialsPromise,
          LEv.createBasicAuthWindow
            (applyLoginHook false none mainStateAcme).proxyHostname
            ((applyLoginHook false none mainStateAcme).proxyRetries == 0)])) ∧
    (loadPodUrl loginEnvOk false mainStateAcme
        [ProbeStep.failure "net" "TIMEOUT" none none] =
      (applyLoginHook false none mainStateAcme,
       [LEv.probe (mainStateAcme.formattedPodUrl ++ AUTH_STATUS_PATH) false]
         ++ loginHookEvents false none mainStateAcme)) :=
  ⟨rfl, rfl,
   (loadPodUrl_proxy_retry loginEnvOk false mainStateAcme []
      "proxy" "PROXY_AUTH_FAILED" none "user" "pw").1 rfl,
   (loadPodUrl_proxy_retry loginEnvOk false mainStateAcme []
      "proxy" "PROXY_AUTH_FAILED" none "user" "pw").2.2.1 rfl,
   (loadPodUrl_proxy_retry loginEnvOk false mainStateAcme []
      "net" "TIMEOUT" none "user" "pw").2.2.2 rfl none⟩

/-- Claim C4 witness: concrete `'sso'` and `'password'` probe responses. -/
theorem loadPodUrl_auth_type_witness :
    (loadPodUrl loginEnvOk false mainStateAcme
        [ProbeStep.success "sso" none] =
      (applyLoginHook false none mainStateAcme,
       LEv.probe (mainStateAcme.formattedPodUrl ++ AUTH_STATUS_PATH) false ::
         loginHookEvents false none mainStateAcme ++
         [LEv.openExternal mainStateAcme.loginUrl])) ∧
    (LEv.loadURL "https://acme.symphony.com" ∉
      (loadPodUrl loginEnvOk false mainStateAcme
        [ProbeStep.success "sso" none]).2) ∧
    (loadPodUrl loginEnvOk false mainStateAcme
        [ProbeStep.success "password" none] =
      ({ applyLoginHook false none mainStateAcme with
          mainWindowOrigin := some mainStateAcme.formattedPodUrl },
       LEv.probe (mainStateAcme.formattedPodUrl ++ AUTH_STATUS_PATH) false ::
         loginHookEvents false none mainStateAcme ++
         [LEv.setMainWindowOrigin mainStateAcme.formattedPodUrl,
          LEv.loadURL mainStateAcme.formattedPodUrl])) :=
  ⟨(loadPodUrl_auth_type loginEnvOk false mainStateAcme [] none).1,
   (loadPodUrl_auth_type loginEnvOk false mainStateAcme [] none).2.1
     "https://acme.symphony.com",
   (loadPodUrl_auth_type loginEnvOk false mainStateAcme [] none).2.2.2
     "password" (by decide) rfl⟩
